import Mathlib

/-!
A verification development for the duckstation software-rasterizer core
(`src/core/gpu_sw_rasterizer.cpp`), the host translation-string cache
(`src/core/host.cpp`) and the D3D11 texture format mapping
(`src/core/gpu/d3d11_texture.cpp`), as a shallow embedding in Lean 4.
-/

namespace GPU_SW_Rasterizer

/-- Size of the ordered-dither matrix (`DITHER_MATRIX_SIZE`, declared in `gpu.h`). -/
def DITHER_MATRIX_SIZE : Nat := 4

/-- Number of representable input intensity levels (`DITHER_LUT_SIZE`, declared in `gpu.h`). -/
def DITHER_LUT_SIZE : Nat := 512

/-- Modelled from the spec: the dither bias matrix `DITHER_MATRIX` is declared in `gpu.h`,
which is not part of the sources at hand; the spec describes it as a fixed NxN table of
per-position bias constants forming a standard ordered-dither pattern (here the PSX 4x4
ordered-dither matrix with biases in `[-4, 3]`). Out-of-range indices return bias 0. -/
def DITHER_MATRIX (i j : Nat) : Int :=
  (([[-4, 0, -3, 1], [2, -2, 3, -1], [-3, 1, -4, 0], [3, -1, 2, -2]] :
      List (List Int)).getD i []).getD j 0

/-- Arithmetic (sign-preserving) right shift by 3 of a signed 32-bit value, as in
`(static_cast<s32>(value) + DITHER_MATRIX[i][j]) >> 3`: at the magnitudes arising here
this is flooring division by 8. -/
def sar3 (x : Int) : Int := x.fdiv 8

/-- The dither lookup table `g_dither_lut`, built once at startup by the constexpr lambda in
`gpu_sw_rasterizer.cpp` lines 17-31: entry `(i, j, value)` is the dithered value, clamped to
`[0, 31]` exactly as the source writes it
(`(dithered_value < 0) ? 0 : ((dithered_value > 31) ? 31 : dithered_value)`). -/
def g_dither_lut (i j value : Nat) : Nat :=
  let dithered_value : Int := sar3 ((value : Int) + DITHER_MATRIX i j)
  (if dithered_value < 0 then (0 : Int)
   else if dithered_value > 31 then 31 else dithered_value).toNat

/-- Saturating clamp to the range `[0, 31]`, the spec-side formulation. -/
def clamp31 (x : Int) : Int := max 0 (min 31 x)

theorem sar3_eq_ediv (x : Int) : sar3 x = x / 8 :=
  Int.fdiv_eq_ediv x (by norm_num)

/-- C3: for every dither-matrix position `(i, j)` with `i, j < DITHER_MATRIX_SIZE` and every
input value `v < DITHER_LUT_SIZE`, the entry `g_dither_lut[i][j][v]` equals
`(v + DITHER_MATRIX[i][j]) >> 3` saturating-clamped to `[0, 31]`; in particular every entry
of the table is in `[0, 31]`. -/
theorem dither_lut_entry_eq_clamped (i j v : Nat)
    (hi : i < DITHER_MATRIX_SIZE) (hj : j < DITHER_MATRIX_SIZE) (hv : v < DITHER_LUT_SIZE) :
    (g_dither_lut i j v : Int) = clamp31 (sar3 ((v : Int) + DITHER_MATRIX i j)) ∧
      g_dither_lut i j v ≤ 31 := by
  simp only [g_dither_lut, clamp31, sar3_eq_ediv]
  split_ifs <;> omega

/-- Concrete instantiation of `dither_lut_entry_eq_clamped` at position `(2, 3)`, input 100. -/
theorem dither_lut_entry_eq_clamped_witness :
    (2 < DITHER_MATRIX_SIZE ∧ 3 < DITHER_MATRIX_SIZE ∧ 100 < DITHER_LUT_SIZE) ∧
      ((g_dither_lut 2 3 100 : Int) = clamp31 (sar3 ((100 : Int) + DITHER_MATRIX 2 3)) ∧
        g_dither_lut 2 3 100 ≤ 31) :=
  ⟨by decide, dither_lut_entry_eq_clamped 2 3 100 (by decide) (by decide) (by decide)⟩

/-- C4: for every fixed dither-matrix position, the dither table is monotonically
non-decreasing in the input value. -/
theorem dither_lut_monotone (i j v v' : Nat) (hle : v ≤ v') (hv' : v' < DITHER_LUT_SIZE) :
    g_dither_lut i j v ≤ g_dither_lut i j v' := by
  simp only [g_dither_lut, sar3_eq_ediv]
  have hmono : ((v : Int) + DITHER_MATRIX i j) / 8 ≤ ((v' : Int) + DITHER_MATRIX i j) / 8 := by
    omega
  split_ifs <;> omega

/-- Concrete instantiation of `dither_lut_monotone` at position `(0, 0)`, inputs 5 and 10. -/
theorem dither_lut_monotone_witness :
    (5 ≤ 10 ∧ 10 < DITHER_LUT_SIZE) ∧ g_dither_lut 0 0 5 ≤ g_dither_lut 0 0 10 :=
  ⟨by decide, dither_lut_monotone 0 0 5 10 (by decide) (by decide)⟩

/-- The compiled ISA variants of the rasterizer routines: the default (baseline) build and
the two alternative builds declared under `CPU_ARCH_SSE` in `gpu_sw_rasterizer.cpp`. -/
inductive RasterizerISA
  | Default
  | AVX2
  | SSE4
deriving DecidableEq

/-- The runtime CPU capabilities probed by the dispatcher
(`cpuinfo_has_x86_avx2()` and `cpuinfo_has_x86_sse4_1()`). -/
structure CPUFeatures where
  hasAVX2 : Bool
  hasSSE41 : Bool
deriving DecidableEq

/-- The dispatcher state of `gpu_sw_rasterizer.cpp`: the function-local static flag
`selected` of `SelectImplementation`, and which variant each of the three selected
function-table pointers (`SelectedDrawRectangleFunctions`, `SelectedDrawTriangleFunctions`,
`SelectedDrawLineFunctions`) refers to. -/
structure RasterizerState where
  selected : Bool
  rectangleISA : RasterizerISA
  triangleISA : RasterizerISA
  lineISA : RasterizerISA
deriving DecidableEq

/-- The state at process start (lines 42-46 and 51): flag clear, all three table pointers
bound to the default implementation's tables. -/
def initialRasterizerState : RasterizerState :=
  { selected := false, rectangleISA := RasterizerISA.Default,
    triangleISA := RasterizerISA.Default, lineISA := RasterizerISA.Default }

/-- The state after a completed selection that kept the default tables. -/
def selectedDefaultState : RasterizerState :=
  { selected := true, rectangleISA := RasterizerISA.Default,
    triangleISA := RasterizerISA.Default, lineISA := RasterizerISA.Default }

/-- ASCII lower-casing of a character code, as C `tolower` on the ASCII range. -/
def asciiLowerCode (c : Char) : Nat :=
  if 65 ≤ c.toNat ∧ c.toNat ≤ 90 then c.toNat + 32 else c.toNat

/-- Case-insensitive string equality, modelling `StringUtil::Strcasecmp(a, b) == 0`. -/
def strcasecmpEq (a b : String) : Bool :=
  a.data.map asciiLowerCode == b.data.map asciiLowerCode

/-- The condition `(!use_isa || StringUtil::Strcasecmp(use_isa, name) == 0)` guarding each
alternative rasterizer in `SelectImplementation`. -/
def overrideAllows (useIsa : Option String) (name : String) : Bool :=
  match useIsa with
  | none => true
  | some s => strcasecmpEq s name

/-- `GPU_SW_Rasterizer::SelectImplementation` (the `CPU_ARCH_SSE` build), lines 49-91.
`useIsa` is the value of `std::getenv("SW_USE_ISA")`, `cpuinfoOk` the success of
`cpuinfo_initialize()`, `caps` the capability probes; the returned list holds the log
lines printed by the call. -/
def SelectImplementation (useIsa : Option String) (cpuinfoOk : Bool) (caps : CPUFeatures)
    (s : RasterizerState) : RasterizerState × List String :=
  if s.selected then (s, [])
  else
    let s1 : RasterizerState := { s with selected := true }
    if !cpuinfoOk then
      (s1, ["cpuinfo_initialize() failed, using default implementation"])
    else if caps.hasAVX2 && overrideAllows useIsa "AVX2" then
      ({ s1 with rectangleISA := RasterizerISA.AVX2, triangleISA := RasterizerISA.AVX2,
                 lineISA := RasterizerISA.AVX2 },
       ["* Using AVX2 software rasterizer implementation."])
    else if caps.hasSSE41 && overrideAllows useIsa "SSE4" then
      ({ s1 with rectangleISA := RasterizerISA.SSE4, triangleISA := RasterizerISA.SSE4,
                 lineISA := RasterizerISA.SSE4 },
       ["* Using SSE4 software rasterizer implementation."])
    else
      (s1, ["* Using default software rasterizer implementation."])

/-- The best-available selection the spec describes: the highest-tier variant the CPU
supports (AVX2 over SSE4 over baseline). -/
def highestSupportedISA (caps : CPUFeatures) : RasterizerISA :=
  if caps.hasAVX2 then RasterizerISA.AVX2
  else if caps.hasSSE41 then RasterizerISA.SSE4
  else RasterizerISA.Default

theorem select_sets_selected (useIsa : Option String) (cpuinfoOk : Bool) (caps : CPUFeatures)
    (s : RasterizerState) : (SelectImplementation useIsa cpuinfoOk caps s).1.selected = true := by
  unfold SelectImplementation
  rcases hs : s.selected
  · simp only [hs, Bool.false_eq_true, if_false]
    split_ifs <;> rfl
  · simp [hs]

/-- C2 fails as stated: with the override naming an unrecognized variant (SW_USE_ISA=FOO)
on a CPU supporting both AVX2 and SSE4.1, `SelectImplementation` keeps the default tables,
while the highest-tier variant the CPU supports is AVX2. -/
theorem env_override_unrecognized_counterexample :
    (SelectImplementation (some "FOO") true ⟨true, true⟩ initialRasterizerState).1.rectangleISA
        = RasterizerISA.Default
  ∧ highestSupportedISA ⟨true, true⟩ = RasterizerISA.AVX2
  ∧ RasterizerISA.Default ≠ RasterizerISA.AVX2 := by
  decide

theorem strcasecmp_sse4_not_avx2 (s : String) (h : strcasecmpEq s "SSE4" = true) :
    strcasecmpEq s "AVX2" = false := by
  simp only [strcasecmpEq, beq_iff_eq] at h
  simp only [strcasecmpEq, h]
  decide

/-- C2 (amended): when the environment override SW_USE_ISA names a variant the CPU does not
support, or an unrecognized name, `SelectImplementation` keeps the default (baseline) tables
selected — not the named variant and not the highest-tier variant the CPU supports;
recognized names are matched case-insensitively. For every override string `s` and every
capability set: if `s` matching a compiled variant's name implies that variant is
unsupported (which covers both unrecognized names and recognized-but-unsupported ones), the
default tables stay selected; and whenever `s` matches "AVX2" (resp. "SSE4")
case-insensitively and that variant is supported, all three tables of that variant are
selected. -/
theorem env_override_unmatched_selects_default (s : String) (caps : CPUFeatures) :
    ((strcasecmpEq s "AVX2" = true → caps.hasAVX2 = false) →
     (strcasecmpEq s "SSE4" = true → caps.hasSSE41 = false) →
     (SelectImplementation (some s) true caps initialRasterizerState).1
        = selectedDefaultState)
  ∧ (strcasecmpEq s "AVX2" = true → caps.hasAVX2 = true →
      (SelectImplementation (some s) true caps initialRasterizerState).1.rectangleISA
          = RasterizerISA.AVX2
      ∧ (SelectImplementation (some s) true caps initialRasterizerState).1.triangleISA
          = RasterizerISA.AVX2
      ∧ (SelectImplementation (some s) true caps initialRasterizerState).1.lineISA
          = RasterizerISA.AVX2)
  ∧ (strcasecmpEq s "SSE4" = true → caps.hasSSE41 = true →
      (SelectImplementation (some s) true caps initialRasterizerState).1.rectangleISA
          = RasterizerISA.SSE4
      ∧ (SelectImplementation (some s) true caps initialRasterizerState).1.triangleISA
          = RasterizerISA.SSE4
      ∧ (SelectImplementation (some s) true caps initialRasterizerState).1.lineISA
          = RasterizerISA.SSE4) := by
  refine ⟨?_, ?_, ?_⟩
  · intro h1 h2
    have gA : (caps.hasAVX2 && overrideAllows (some s) "AVX2") = false := by
      rcases hc : strcasecmpEq s "AVX2"
      · simp [overrideAllows, hc]
      · simp [overrideAllows, hc, h1 hc]
    have gS : (caps.hasSSE41 && overrideAllows (some s) "SSE4") = false := by
      rcases hc : strcasecmpEq s "SSE4"
      · simp [overrideAllows, hc]
      · simp [overrideAllows, hc, h2 hc]
    simp [SelectImplementation, initialRasterizerState, selectedDefaultState, gA, gS]
  · intro hm hc
    simp [SelectImplementation, initialRasterizerState, overrideAllows, hm, hc]
  · intro hm hc
    simp [SelectImplementation, initialRasterizerState, overrideAllows, hm, hc,
      strcasecmp_sse4_not_avx2 s hm]

/-- Concrete instantiations of `env_override_unmatched_selects_default`: SW_USE_ISA=FOO on
a CPU supporting AVX2 and SSE4.1 keeps the default tables; SW_USE_ISA=avx2 (lower case) on
an AVX2-capable CPU selects AVX2; SW_USE_ISA=sse4 (lower case) on an SSE4.1-only CPU
selects SSE4. -/
theorem env_override_unmatched_selects_default_witness :
    ((SelectImplementation (some "FOO") true ⟨true, true⟩ initialRasterizerState).1
        = selectedDefaultState)
  ∧ ((SelectImplementation (some "avx2") true ⟨true, false⟩ initialRasterizerState).1.rectangleISA
        = RasterizerISA.AVX2
     ∧ (SelectImplementation (some "avx2") true ⟨true, false⟩ initialRasterizerState).1.triangleISA
        = RasterizerISA.AVX2
     ∧ (SelectImplementation (some "avx2") true ⟨true, false⟩ initialRasterizerState).1.lineISA
        = RasterizerISA.AVX2)
  ∧ ((SelectImplementation (some "sse4") true ⟨false, true⟩ initialRasterizerState).1.rectangleISA
        = RasterizerISA.SSE4
     ∧ (SelectImplementation (some "sse4") true ⟨false, true⟩ initialRasterizerState).1.triangleISA
        = RasterizerISA.SSE4
     ∧ (SelectImplementation (some "sse4") true ⟨false, true⟩ initialRasterizerState).1.lineISA
        = RasterizerISA.SSE4) :=
  ⟨(env_override_unmatched_selects_default "FOO" ⟨true, true⟩).1 (by decide) (by decide),
   (env_override_unmatched_selects_default "avx2" ⟨true, false⟩).2.1 (by decide) (by decide),
   (env_override_unmatched_selects_default "sse4" ⟨false, true⟩).2.2 (by decide) (by decide)⟩

/-- C5: `SelectImplementation` is idempotent — after any call completes, a subsequent call
(with any environment, probe result or capabilities) returns without changing the selected
function tables, and the resulting state equals the one the first call alone produced. -/
theorem select_implementation_idempotent (useIsa useIsa2 : Option String)
    (ok ok2 : Bool) (caps caps2 : CPUFeatures) (s0 : RasterizerState) :
    SelectImplementation useIsa2 ok2 caps2 (SelectImplementation useIsa ok caps s0).1
      = ((SelectImplementation useIsa ok caps s0).1, []) := by
  have h := select_sets_selected useIsa ok caps s0
  generalize (SelectImplementation useIsa ok caps s0).1 = s1 at h ⊢
  unfold SelectImplementation
  simp [h]

/-- C6: if CPU capability probing (`cpuinfo_initialize`) fails, `SelectImplementation`
returns normally with the baseline/default function tables still active and logs an error
line — the failure is a recoverable degradation, not propagated to the caller. -/
theorem probe_failure_keeps_default_tables (useIsa : Option String) (caps : CPUFeatures) :
    (SelectImplementation useIsa false caps initialRasterizerState).1.rectangleISA
        = RasterizerISA.Default
  ∧ (SelectImplementation useIsa false caps initialRasterizerState).1.triangleISA
        = RasterizerISA.Default
  ∧ (SelectImplementation useIsa false caps initialRasterizerState).1.lineISA
        = RasterizerISA.Default
  ∧ (SelectImplementation useIsa false caps initialRasterizerState).2
        = ["cpuinfo_initialize() failed, using default implementation"] := by
  simp [SelectImplementation, initialRasterizerState]

/-- All three selected function-table pointers refer to the tables of one and the same
implementation variant. -/
def coherentTables (s : RasterizerState) : Prop :=
  s.rectangleISA = s.triangleISA ∧ s.triangleISA = s.lineISA

/-- C7: the initial tables are coherent, and whenever `SelectImplementation` returns (on
every path: default, probe failure, AVX2, SSE4), table coherence is preserved — callers
never observe a mixed set of tables. -/
theorem select_implementation_coherent (useIsa : Option String) (ok : Bool)
    (caps : CPUFeatures) (s0 : RasterizerState) (h : coherentTables s0) :
    coherentTables initialRasterizerState
      ∧ coherentTables (SelectImplementation useIsa ok caps s0).1 := by
  constructor
  · exact ⟨rfl, rfl⟩
  · unfold coherentTables at h
    unfold SelectImplementation coherentTables
    split_ifs <;> simp_all

/-- Concrete instantiation of `select_implementation_coherent` at the initial state with an
AVX2-capable CPU. -/
theorem select_implementation_coherent_witness :
    coherentTables initialRasterizerState
  ∧ (coherentTables initialRasterizerState
      ∧ coherentTables (SelectImplementation none true ⟨true, true⟩ initialRasterizerState).1) :=
  ⟨⟨rfl, rfl⟩,
    select_implementation_coherent none true ⟨true, true⟩ initialRasterizerState ⟨rfl, rfl⟩⟩

/-- The drawing-area clip rectangle `g_drawing_area` (a `Common::Rectangle<u32>`,
`gpu_sw_rasterizer.cpp` line 33), with inclusive min/max bounds in framebuffer
coordinates. -/
structure DrawingArea where
  left : Nat
  top : Nat
  right : Nat
  bottom : Nat
deriving DecidableEq

/-- Pixel `(x, y)` lies inside the drawing-area clip rectangle. -/
def inDrawingArea (da : DrawingArea) (x y : Nat) : Bool :=
  decide (da.left ≤ x ∧ x ≤ da.right ∧ da.top ≤ y ∧ y ≤ da.bottom)

/-- Pixel `(x, y)` lies inside a framebuffer of `fbW` by `fbH` pixels. -/
def inFramebuffer (fbW fbH x y : Nat) : Bool :=
  decide (x < fbW ∧ y < fbH)

/-- Pixel `(x, y)` lies inside the axis-aligned rectangle with origin `(ox, oy)` and size
`w` by `h`. -/
def inRectangle (ox oy w h x y : Nat) : Bool :=
  decide (ox ≤ x ∧ x < ox + w ∧ oy ≤ y ∧ y < oy + h)

/-- Modelled from the spec: the rasterizer primitive routines live in
`gpu_sw_rasterizer.inl`, which is not part of the sources at hand. Per the spec, every
primitive routine computes its clipping before any write — "no pixel outside it may be
written" and "clipping is computed before any write" — so a draw call whose candidate
pixels are described by the predicate `prim` writes exactly the candidate pixels that lie
inside the drawing area and the framebuffer. -/
def rasterizationWrites (fbW fbH : Nat) (da : DrawingArea) (prim : Nat → Nat → Bool)
    (x y : Nat) : Bool :=
  prim x y && inDrawingArea da x y && inFramebuffer fbW fbH x y

/-- Modelled from the spec: the rectangle routine "fills an axis-aligned pixel rectangle
clipped to DrawingArea" — its candidate pixels are exactly the rectangle's pixels. -/
def rectangleWrites (fbW fbH : Nat) (da : DrawingArea) (ox oy w h x y : Nat) : Bool :=
  rasterizationWrites fbW fbH da (inRectangle ox oy w h) x y

/-- C1: no rasterization call writes a pixel outside the intersection of the DrawingArea
and the framebuffer bounds; and, when the drawing area lies within the framebuffer, the set
of pixels written by a rectangle draw (however far its bounds exceed the drawing area) is
exactly the intersection of the rectangle and the DrawingArea. -/
theorem rasterization_clipped (fbW fbH : Nat) (da : DrawingArea) (prim : Nat → Nat → Bool)
    (ox oy w h x y : Nat) (hr : da.right < fbW) (hb : da.bottom < fbH) :
    (rasterizationWrites fbW fbH da prim x y = true →
        inDrawingArea da x y = true ∧ inFramebuffer fbW fbH x y = true)
  ∧ rectangleWrites fbW fbH da ox oy w h x y
      = (inRectangle ox oy w h x y && inDrawingArea da x y) := by
  have hfb : inDrawingArea da x y = true → inFramebuffer fbW fbH x y = true := by
    intro hda
    simp only [inDrawingArea, decide_eq_true_eq] at hda
    simp only [inFramebuffer, decide_eq_true_eq]
    omega
  constructor
  · intro hw
    simp only [rasterizationWrites, Bool.and_eq_true] at hw
    exact ⟨hw.1.2, hw.2⟩
  · unfold rectangleWrites rasterizationWrites
    rcases hda : inDrawingArea da x y
    · simp
    · simp [hfb hda]

/-- Concrete instantiation of `rasterization_clipped`: a 20x20 rectangle at `(90, 90)`
against the drawing area `(0, 0)-(100, 100)` in a 1024x512 framebuffer, at pixel
`(95, 95)`. -/
theorem rasterization_clipped_witness :
    ((⟨0, 0, 100, 100⟩ : DrawingArea).right < 1024
      ∧ (⟨0, 0, 100, 100⟩ : DrawingArea).bottom < 512)
  ∧ ((rasterizationWrites 1024 512 ⟨0, 0, 100, 100⟩ (inRectangle 90 90 20 20) 95 95 = true →
        inDrawingArea ⟨0, 0, 100, 100⟩ 95 95 = true ∧ inFramebuffer 1024 512 95 95 = true)
     ∧ rectangleWrites 1024 512 ⟨0, 0, 100, 100⟩ 90 90 20 20 95 95
         = (inRectangle 90 90 20 20 95 95 && inDrawingArea ⟨0, 0, 100, 100⟩ 95 95)) :=
  ⟨⟨by decide, by decide⟩,
    rasterization_clipped 1024 512 ⟨0, 0, 100, 100⟩ (inRectangle 90 90 20 20) 90 90 20 20
      95 95 (by decide) (by decide)⟩

end GPU_SW_Rasterizer

namespace Host

/-- `TRANSLATION_STRING_CACHE_SIZE` in `host.cpp` line 31. -/
def TRANSLATION_STRING_CACHE_SIZE : Nat := 4 * 1024 * 1024

/-- The static translation state of `host.cpp` lines 35-37: the context map
`s_translation_string_map` (contexts to messages to (offset, length) pairs), the character
vector `s_translation_string_cache` and the write position
`s_translation_string_cache_pos`. -/
structure TranslationState where
  map : List (String × List (String × Nat × Nat))
  cache : List Char
  cachePos : Nat
deriving DecidableEq

/-- The state at process start: empty map, empty (size-0) cache vector, position 0. -/
def initialTranslationState : TranslationState :=
  { map := [], cache := [], cachePos := 0 }

/-- What `Host::LookupTranslationString` returns, as a `std::pair<const char*, u32>`:
the returned pointer is `&s_translation_string_cache[ptrIndex]`, `len` is the second
component, and `inBounds` records whether `ptrIndex` indexes inside the bounds of the cache
vector at the moment of the access. -/
structure LookupResult where
  ptrIndex : Nat
  len : Nat
  inBounds : Bool
deriving DecidableEq

/-- `UnorderedStringMapFind(s_translation_string_map, context)`. -/
def findContext (m : List (String × List (String × Nat × Nat))) (ctx : String) :
    Option (List (String × Nat × Nat)) :=
  (m.find? (fun e => e.1 == ctx)).map (fun e => e.2)

/-- The nested lookup of `context` then `msg` performed under the shared lock
(`host.cpp` lines 248-258). -/
def findMsg (m : List (String × List (String × Nat × Nat))) (ctx msg : String) :
    Option (Nat × Nat) :=
  match findContext m ctx with
  | none => none
  | some tm => (tm.find? (fun e => e.1 == msg)).map (fun e => e.2)

/-- Inserting `(msg, entry)` into the bucket of `ctx`, creating the context bucket when
absent (`host.cpp` lines 290-298). -/
def insertMsg (m : List (String × List (String × Nat × Nat))) (ctx msg : String)
    (entry : Nat × Nat) : List (String × List (String × Nat × Nat)) :=
  match m with
  | [] => [(ctx, [(msg, entry)])]
  | e :: rest =>
    if e.1 == ctx then (e.1, e.2 ++ [(msg, entry)]) :: rest
    else e :: insertMsg rest ctx msg entry

/-- Overwriting `cache[pos..]` with the characters of `t`. -/
def writeChars (cache : List Char) (pos : Nat) (t : List Char) : List Char :=
  cache.take pos ++ t ++ cache.drop (pos + t.length)

/-- `Host::LookupTranslationString` (`host.cpp` lines 230-305). `impl` models
`Host::Internal::GetTranslatedStringImpl` (declared elsewhere, not part of the sources at
hand) as the translated text of a (context, msg) pair; the negative-length cache-clear
retry path (lines 274-287) is not modelled — no claim depends on it. The empty-msg early
return (lines 240-245) yields length 0 and a pointer to element 0 of the cache vector,
whose in-boundedness at that moment is recorded in the result. -/
def LookupTranslationString (impl : String → String → List Char) (st : TranslationState)
    (ctx msg : String) : LookupResult × TranslationState :=
  if msg.isEmpty then
    ({ ptrIndex := 0, len := 0, inBounds := decide (0 < st.cache.length) }, st)
  else
    match findMsg st.map ctx msg with
    | some pl =>
        ({ ptrIndex := pl.1, len := pl.2, inBounds := decide (pl.1 < st.cache.length) }, st)
    | none =>
        let st1 := if st.cache.length == 0 then
            { st with cache := List.replicate TRANSLATION_STRING_CACHE_SIZE (Char.ofNat 0),
                      cachePos := 0 }
          else st
        let t := impl ctx msg
        let insert_pos := st1.cachePos
        let st2 : TranslationState :=
          { map := insertMsg st1.map ctx msg (insert_pos, t.length),
            cache := writeChars st1.cache insert_pos (t ++ [Char.ofNat 0]),
            cachePos := insert_pos + t.length + 1 }
        ({ ptrIndex := insert_pos, len := t.length, inBounds := decide (insert_pos < st2.cache.length) },
         st2)

/-- C9, evaluated at the failing input: at process start (the cache vector still has size
0, no prior non-empty lookup having resized it), looking up an empty `msg` returns length 0
and a pointer to element 0 without modifying the cache or the map — but that element-0
access is NOT within the bounds of the empty cache vector, contrary to the claim. -/
theorem empty_msg_lookup_at_start_out_of_bounds :
    (LookupTranslationString (fun _ _ => []) initialTranslationState "System" "").1.len = 0
  ∧ (LookupTranslationString (fun _ _ => []) initialTranslationState "System" "").1.ptrIndex = 0
  ∧ (LookupTranslationString (fun _ _ => []) initialTranslationState "System" "").2
      = initialTranslationState
  ∧ (LookupTranslationString (fun _ _ => []) initialTranslationState "System" "").1.inBounds
      = false :=
  ⟨rfl, rfl, rfl, rfl⟩

end Host

namespace D3D11Texture

/-- The texture formats of `GPUTexture::Format`. Modelled from the spec: the enum is
declared in `gpu_texture.h`, which is not part of the sources at hand; `Unknown` is its
first (zero) value and `Count` is 7, the extent of `s_dxgi_mapping` in
`d3d11_texture.cpp`. -/
inductive Format
  | Unknown
  | RGBA8
  | BGRA8
  | RGB565
  | RGBA5551
  | R8
  | D16
deriving DecidableEq

/-- `static_cast<u8>(format)`: the ordinal of a format. -/
def formatIndex : Format → Nat
  | Format.Unknown => 0
  | Format.RGBA8 => 1
  | Format.BGRA8 => 2
  | Format.RGB565 => 3
  | Format.RGBA5551 => 4
  | Format.R8 => 5
  | Format.D16 => 6

/-- `static_cast<Format>(i)` for `i < Count`, the inverse ordinal mapping. -/
def indexFormat : Nat → Format
  | 0 => Format.Unknown
  | 1 => Format.RGBA8
  | 2 => Format.BGRA8
  | 3 => Format.RGB565
  | 4 => Format.RGBA5551
  | 5 => Format.R8
  | _ => Format.D16

/-- The `DXGI_FORMAT` enum values (Windows SDK `dxgiformat.h`) appearing in the table:
UNKNOWN, R8G8B8A8_UNORM, B8G8R8A8_UNORM, B5G6R5_UNORM, B5G5R5A1_UNORM, R8_UNORM,
D16_UNORM. -/
def s_dxgi_mapping : List Nat := [0, 28, 87, 85, 86, 61, 55]

/-- `D3D11Texture::GetDXGIFormat`: index the static table by the format's ordinal. -/
def GetDXGIFormat (format : Format) : Nat :=
  s_dxgi_mapping.getD (formatIndex format) 0

/-- `D3D11Texture::LookupBaseFormat`: scan the table in index order and return the first
index whose entry matches, else `Format::Unknown`. -/
def LookupBaseFormat (dformat : Nat) : Format :=
  match (List.range s_dxgi_mapping.length).find? (fun i => s_dxgi_mapping.getD i 0 == dformat) with
  | some i => indexFormat i
  | none => Format.Unknown

/-- C10: the DXGI format mapping round-trips — for every `GPUTexture::Format` value
(including `Unknown`), `LookupBaseFormat (GetDXGIFormat f) = f` — and the entries of the
static table are pairwise distinct. -/
theorem dxgi_format_roundtrip :
    (∀ f : Format, LookupBaseFormat (GetDXGIFormat f) = f) ∧ s_dxgi_mapping.Nodup := by
  constructor
  · intro f
    cases f <;> rfl
  · decide

end D3D11Texture
